import Mathlib

/-!
Verification of the time-of-day lighting subsystem of the Tokyo Tower scene
(`src/main.js`, final file variant; line references below are into that file).

JavaScript numbers are modelled as exact rationals (`ℚ`) for the transition
engine and the per-frame animators, and as reals (`ℝ`) where the source calls
transcendental functions (`Math.log`, `Math.pow`, `Math.sin`).  `undefined`
preset fields are modelled with `Option`.
-/

namespace TokyoTower

/-- A `THREE.Color`: three channels, each stored in `[0,1]` as `component/255`
when built from a hex literal. -/
structure Color where
  r : ℚ
  g : ℚ
  b : ℚ
deriving DecidableEq

/-- `new THREE.Color(hex)`: extract the three 8-bit components of a hex
literal and normalise by 255. -/
def Color.ofHex (n : ℕ) : Color :=
  ⟨((n / 65536 % 256 : ℕ) : ℚ) / 255, ((n / 256 % 256 : ℕ) : ℚ) / 255, ((n % 256 : ℕ) : ℚ) / 255⟩

/-- The live mutable snapshot `current` (main.js:1587-1607).  The derived
field `sunColor` is recomputed every frame from `sunKelvin` by
`updateSkyAndLights` (main.js:1963) and never interpolated, so it is not part
of the interpolated state. -/
structure EnvState where
  exposure : ℚ
  amb : ℚ
  sunInt : ℚ
  sunKelvin : ℚ
  turbidity : ℚ
  rayleigh : ℚ
  mieC : ℚ
  mieG : ℚ
  elev : ℚ
  azim : ℚ
  stars : ℚ
  hemiInt : ℚ
  fogDensity : ℚ
  hemiSky : Color
  hemiGround : Color
  fogColor : Color
deriving DecidableEq

/-- The initial value of `current` (main.js:1587-1607). -/
def initialCurrent : EnvState where
  exposure := 0.65
  amb := 0.35
  sunInt := 0.8
  sunKelvin := 6500
  turbidity := 6
  rayleigh := 2.0
  mieC := 0.0025
  mieG := 0.78
  elev := 45
  azim := 180
  stars := 0.0
  hemiInt := 0.0
  fogDensity := 0.0
  hemiSky := Color.ofHex 0xffffff
  hemiGround := Color.ofHex 0x202020
  fogColor := Color.ofHex 0x000000

/-- An argument object passed to `startTransition`: a JS object in which any
field may be absent (`undefined`), modelled by `none`. -/
structure Preset where
  exposure : Option ℚ
  amb : Option ℚ
  sunInt : Option ℚ
  sunKelvin : Option ℚ
  turbidity : Option ℚ
  rayleigh : Option ℚ
  mieC : Option ℚ
  mieG : Option ℚ
  elev : Option ℚ
  azim : Option ℚ
  stars : Option ℚ
  hemiInt : Option ℚ
  fogDensity : Option ℚ
  hemiSky : Option Color
  hemiGround : Option Color
  fogColor : Option Color
deriving DecidableEq

/-- The `to` snapshot built by `startTransition` (main.js:1627-1638): the
spread `{...to}` keeps omitted fields `undefined`, and only `hemiSky`,
`hemiGround`, `fogColor`, `hemiInt`, `fogDensity` and `sunKelvin` are given
`?? current` fallbacks. -/
structure ToSnap where
  exposure : Option ℚ
  amb : Option ℚ
  sunInt : Option ℚ
  turbidity : Option ℚ
  rayleigh : Option ℚ
  mieC : Option ℚ
  mieG : Option ℚ
  elev : Option ℚ
  azim : Option ℚ
  stars : Option ℚ
  sunKelvin : ℚ
  hemiInt : ℚ
  fogDensity : ℚ
  hemiSky : Color
  hemiGround : Color
  fogColor : Color
deriving DecidableEq

/-- The record stored in the global `transition` variable
(main.js:1609, 1619-1641). -/
structure Transition where
  src : EnvState
  toSnap : ToSnap
  t0 : ℚ
  dur : ℚ
deriving DecidableEq

/-- `startTransition(to, duration)` (main.js:1618-1642).  The `from` snapshot
is a value copy of the live `current` (the `.clone()` calls on the color
fields make the JS copy deep; Lean values are immutable so a plain copy is
faithful).  `t0 := now` models `performance.now()` and `dur` is the duration
converted to milliseconds. -/
def startTransition (toP : Preset) (duration : ℚ) (cur : EnvState) (now : ℚ) : Transition where
  src := cur
  toSnap :=
    { exposure := toP.exposure
      amb := toP.amb
      sunInt := toP.sunInt
      turbidity := toP.turbidity
      rayleigh := toP.rayleigh
      mieC := toP.mieC
      mieG := toP.mieG
      elev := toP.elev
      azim := toP.azim
      stars := toP.stars
      hemiSky := toP.hemiSky.getD cur.hemiSky
      hemiGround := toP.hemiGround.getD cur.hemiGround
      fogColor := toP.fogColor.getD cur.fogColor
      hemiInt := toP.hemiInt.getD cur.hemiInt
      fogDensity := toP.fogDensity.getD cur.fogDensity
      sunKelvin := toP.sunKelvin.getD cur.sunKelvin }
  t0 := now
  dur := duration * 1000

/-- `lerp(a, b, t)` (main.js:1644). -/
def lerp (a b t : ℚ) : ℚ := a + (b - a) * t

/-- `smoothstep(t)` (main.js:1645), the cubic easing applied to raw progress. -/
def smoothstep (t : ℚ) : ℚ := t * t * (3 - 2 * t)

/-- `THREE.Color.lerp`: per-channel linear blend. -/
def colorLerp (a b : Color) (t : ℚ) : Color :=
  ⟨lerp a.r b.r t, lerp a.g b.g t, lerp a.b b.b t⟩

/-- A `to` snapshot with every field defined, viewed as an `EnvState`.
`resolve` returns `none` when some field was omitted by the caller and given
no fallback, in which case the JS interpolation would write `NaN`. -/
def ToSnap.resolve (s : ToSnap) : Option EnvState :=
  match s.exposure, s.amb, s.sunInt, s.turbidity, s.rayleigh,
        s.mieC, s.mieG, s.elev, s.azim, s.stars with
  | some e, some a, some si, some tu, some ra, some mc, some mg, some el, some az, some st =>
      some { exposure := e, amb := a, sunInt := si, sunKelvin := s.sunKelvin,
             turbidity := tu, rayleigh := ra, mieC := mc, mieG := mg,
             elev := el, azim := az, stars := st, hemiInt := s.hemiInt,
             fogDensity := s.fogDensity, hemiSky := s.hemiSky,
             hemiGround := s.hemiGround, fogColor := s.fogColor }
  | _, _, _, _, _, _, _, _, _, _ => none

/-- The upper clamp `if (t >= 1) { t = 1; }` (main.js:1915); the raw progress
is not clamped below 0. -/
def clampTop (t : ℚ) : ℚ := if t ≥ 1 then 1 else t

/-- The field-by-field interpolation block of `updateSkyAndLights`
(main.js:1918-1943), applied with the already-eased progress `t`.  The source
writes `lerp(a.sunKelvin ?? 6500, b.sunKelvin ?? 6500, t)`; both snapshots
always carry a defined `sunKelvin` (the `from` is a copy of `current`, the
`to` is defaulted at `startTransition`), so the `?? 6500` is the identity
here. -/
def lerpState (a b : EnvState) (t : ℚ) : EnvState where
  exposure := lerp a.exposure b.exposure t
  amb := lerp a.amb b.amb t
  sunInt := lerp a.sunInt b.sunInt t
  sunKelvin := lerp a.sunKelvin b.sunKelvin t
  turbidity := lerp a.turbidity b.turbidity t
  rayleigh := lerp a.rayleigh b.rayleigh t
  mieC := lerp a.mieC b.mieC t
  mieG := lerp a.mieG b.mieG t
  elev := lerp a.elev b.elev t
  azim := lerp a.azim b.azim t
  stars := lerp a.stars b.stars t
  hemiInt := lerp a.hemiInt b.hemiInt t
  fogDensity := lerp a.fogDensity b.fogDensity t
  hemiSky := colorLerp a.hemiSky b.hemiSky t
  hemiGround := colorLerp a.hemiGround b.hemiGround t
  fogColor := colorLerp a.fogColor b.fogColor t

/-- The transition-advance step at the head of `updateSkyAndLights`
(main.js:1912-1947): compute raw progress, clamp at 1, ease with
`smoothstep`, interpolate every field, and clear the transition once the
eased progress equals 1.  When the `to` snapshot does not resolve the JS
code would fill `current` with `NaN`; that path is unreachable from the
program (all three `setTimeOfDay` presets are fully specified) and every
theorem below that touches this function assumes a resolvable snapshot, so
the model leaves the state unchanged there. -/
def advanceStep (cur : EnvState) (tr : Option Transition) (now : ℚ) :
    EnvState × Option Transition :=
  match tr with
  | none => (cur, none)
  | some tr =>
      match tr.toSnap.resolve with
      | none => (cur, some tr)
      | some b =>
          let t := smoothstep (clampTop ((now - tr.t0) / tr.dur))
          (lerpState tr.src b t, if t = 1 then none else some tr)

/-- The pieces of per-frame state read and written around the star-field
binding in `updateSkyAndLights` (main.js:1912-1947, 2019-2023). -/
structure SkyFrame where
  current : EnvState
  transition : Option Transition
  uOpacity : ℚ
deriving DecidableEq

/-- `updateSkyAndLights` restricted to the state the claims are about: the
transition advance followed by the star-field opacity binding
`s.material.uniforms.uOpacity.value = current.stars*1.3` (main.js:2021),
which reads the freshly advanced `current` and ignores the uniform's previous
value. -/
def updateSkyAndLights (fr : SkyFrame) (now : ℚ) : SkyFrame :=
  let p := advanceStep fr.current fr.transition now
  { current := p.1, transition := p.2, uOpacity := p.1.stars * 1.3 }

/-- The `sunset` preset literal (main.js:1675-1697): every field supplied. -/
def sunsetPreset : Preset where
  exposure := some 0.25
  amb := some 0.1
  sunInt := some 0.60
  sunKelvin := some 3200
  turbidity := some 10
  rayleigh := some 2.2
  mieC := some 0.010
  mieG := some 0.90
  elev := some 3.0
  azim := some 170
  hemiInt := some 0.55
  hemiSky := some (Color.ofHex 0xffc3a0)
  hemiGround := some (Color.ofHex 0x0b1020)
  fogDensity := some 0.00035
  fogColor := some (Color.ofHex 0x142033)
  stars := some 0.0

/-- The `day` preset literal (main.js:1702-1724): every field supplied. -/
def dayPreset : Preset where
  exposure := some 0.3
  amb := some 0.18
  sunInt := some 3.0
  sunKelvin := some 6500
  turbidity := some 6
  rayleigh := some 3.0
  mieC := some 0.0025
  mieG := some 0.78
  elev := some 55
  azim := some 0
  fogDensity := some 0.00008
  fogColor := some (Color.ofHex 0xb8d2f0)
  hemiInt := some 0.35
  hemiSky := some (Color.ofHex 0xcfe8ff)
  hemiGround := some (Color.ofHex 0x2a2a2a)
  stars := some 0.0

/-- The `night` preset literal (main.js:1729-1746): every field supplied. -/
def nightPreset : Preset where
  exposure := some 0.22
  amb := some 0.05
  sunInt := some 0.01
  sunKelvin := some 10000
  turbidity := some 1.0
  rayleigh := some 0.0
  mieC := some 0.0
  mieG := some 0.7
  elev := some (-20)
  azim := some 180
  hemiInt := some 0.05
  hemiSky := some (Color.ofHex 0x05081a)
  hemiGround := some (Color.ofHex 0x000000)
  stars := some 1.0
  fogDensity := some 0.0004
  fogColor := some (Color.ofHex 0x0b1020)

/-- The process-wide state touched by `setTimeOfDay`: the live snapshot, the
active transition and the IBL intensity setting `lighting.ibl`. -/
structure SysState where
  current : EnvState
  transition : Option Transition
  ibl : ℚ
deriving DecidableEq

/-- `setTimeOfDay(mode)` (main.js:1673-1751): three independent `if` blocks
keyed on the mode string, each starting a transition to a fixed preset with a
fixed duration and setting `lighting.ibl`. -/
def setTimeOfDay (mode : String) (now : ℚ) (st : SysState) : SysState :=
  let st1 :=
    if mode = "sunset" then
      { st with transition := some (startTransition sunsetPreset 2.5 st.current now),
                ibl := 0.25 }
    else st
  let st2 :=
    if mode = "day" then
      { st1 with transition := some (startTransition dayPreset 2.0 st1.current now),
                 ibl := 0.55 }
    else st1
  if mode = "night" then
    { st2 with transition := some (startTransition nightPreset 3.0 st2.current now),
               ibl := 0.01 }
  else st2

end TokyoTower

namespace TokyoTower

theorem lerp_zero (a b : ℚ) : lerp a b 0 = a := by unfold lerp; ring

theorem lerp_one (a b : ℚ) : lerp a b 1 = b := by unfold lerp; ring

theorem colorLerp_zero (a b : Color) : colorLerp a b 0 = a := by
  simp [colorLerp, lerp_zero]

theorem colorLerp_one (a b : Color) : colorLerp a b 1 = b := by
  simp [colorLerp, lerp_one]

theorem lerpState_zero (a b : EnvState) : lerpState a b 0 = a := by
  simp [lerpState, lerp_zero, colorLerp_zero]

theorem lerpState_one (a b : EnvState) : lerpState a b 1 = b := by
  simp [lerpState, lerp_one, colorLerp_one]

theorem smoothstep_zero : smoothstep 0 = 0 := by norm_num [smoothstep]

theorem smoothstep_one : smoothstep 1 = 1 := by norm_num [smoothstep]

/-- Claim C1: once the per-frame advance step runs at a time `now` with
`now - startTime ≥ durationMs`, every field of the live state is set exactly
to the transition's `to` snapshot and the transition is cleared; with no
transition active, later frames leave those values unchanged. -/
theorem advance_terminal (cur b : EnvState) (tr : Transition) (now later : ℚ)
    (hres : tr.toSnap.resolve = some b) (hdur : 0 < tr.dur)
    (helapsed : tr.dur ≤ now - tr.t0) :
    advanceStep cur (some tr) now = (b, none) ∧
    advanceStep b none later = (b, none) := by
  have hraw : (1 : ℚ) ≤ (now - tr.t0) / tr.dur := (one_le_div hdur).mpr helapsed
  have hct : clampTop ((now - tr.t0) / tr.dur) = 1 := if_pos hraw
  refine ⟨?_, rfl⟩
  simp only [advanceStep, hres, hct, smoothstep_one, lerpState_one, eq_self_iff_true, if_true]


/-- The `EnvState` the `night` transition arrives at: the night preset's
values (all fields supplied, so no fallback fires). -/
def nightArrival : EnvState where
  exposure := 0.22
  amb := 0.05
  sunInt := 0.01
  sunKelvin := 10000
  turbidity := 1.0
  rayleigh := 0.0
  mieC := 0.0
  mieG := 0.7
  elev := -20
  azim := 180
  stars := 1.0
  hemiInt := 0.05
  fogDensity := 0.0004
  hemiSky := Color.ofHex 0x05081a
  hemiGround := Color.ofHex 0x000000
  fogColor := Color.ofHex 0x0b1020

/-- Witness for C1: the program's own `night` transition (3 s), started at
time 0 and advanced at 3000 ms, lands exactly on the night snapshot and is
cleared; a later frame with no transition leaves it unchanged. -/
theorem advance_terminal_witness :
    (startTransition nightPreset 3 initialCurrent 0).toSnap.resolve = some nightArrival ∧
    0 < (startTransition nightPreset 3 initialCurrent 0).dur ∧
    (startTransition nightPreset 3 initialCurrent 0).dur
      ≤ 3000 - (startTransition nightPreset 3 initialCurrent 0).t0 ∧
    advanceStep initialCurrent (some (startTransition nightPreset 3 initialCurrent 0)) 3000
      = (nightArrival, none) ∧
    advanceStep nightArrival none 5000 = (nightArrival, none) := by
  have hres : (startTransition nightPreset 3 initialCurrent 0).toSnap.resolve
      = some nightArrival := rfl
  have hdur : (0 : ℚ) < (startTransition nightPreset 3 initialCurrent 0).dur := by
    norm_num [startTransition]
  have helapsed : (startTransition nightPreset 3 initialCurrent 0).dur
      ≤ 3000 - (startTransition nightPreset 3 initialCurrent 0).t0 := by
    norm_num [startTransition]
  obtain ⟨h1, h2⟩ := advance_terminal initialCurrent nightArrival
    (startTransition nightPreset 3 initialCurrent 0) 3000 5000 hres hdur helapsed
  exact ⟨hres, hdur, helapsed, h1, h2⟩


/-- Claim C2: `startTransition` snapshots the live `current` as the new
`from` (a value copy, colors included), so the advance step at the new start
time (raw progress 0, `smoothstep 0 = 0`) reproduces the pre-switch state
exactly — whatever transition was previously in flight, since the previous
transition is simply overwritten and only enters through `cur`. -/
theorem start_midflight_continuous (cur b : EnvState) (p : Preset) (d now : ℚ)
    (hres : (startTransition p d cur now).toSnap.resolve = some b) (hd : 0 < d) :
    (startTransition p d cur now).src = cur ∧
    advanceStep cur (some (startTransition p d cur now)) now
      = (cur, some (startTransition p d cur now)) := by
  have hct : clampTop ((now - (startTransition p d cur now).t0)
      / (startTransition p d cur now).dur) = 0 := by
    norm_num [startTransition, clampTop]
  constructor
  · rfl
  · simp only [advanceStep, hres, hct, smoothstep_zero, lerpState_zero]
    norm_num
    rfl

/-- Witness for C2: restarting toward `sunset` from the program's initial
state at time 500 ms keeps the live state unchanged at that same frame. -/
theorem start_midflight_continuous_witness :
    (startTransition sunsetPreset 2.5 initialCurrent 500).toSnap.resolve
      = some { exposure := 0.25, amb := 0.1, sunInt := 0.60, sunKelvin := 3200,
               turbidity := 10, rayleigh := 2.2, mieC := 0.010, mieG := 0.90,
               elev := 3.0, azim := 170, stars := 0.0, hemiInt := 0.55,
               fogDensity := 0.00035, hemiSky := Color.ofHex 0xffc3a0,
               hemiGround := Color.ofHex 0x0b1020, fogColor := Color.ofHex 0x142033 } ∧
    (0 : ℚ) < 2.5 ∧
    (startTransition sunsetPreset 2.5 initialCurrent 500).src = initialCurrent ∧
    advanceStep initialCurrent (some (startTransition sunsetPreset 2.5 initialCurrent 500)) 500
      = (initialCurrent, some (startTransition sunsetPreset 2.5 initialCurrent 500)) := by
  have hres : (startTransition sunsetPreset 2.5 initialCurrent 500).toSnap.resolve
      = some { exposure := 0.25, amb := 0.1, sunInt := 0.60, sunKelvin := 3200,
               turbidity := 10, rayleigh := 2.2, mieC := 0.010, mieG := 0.90,
               elev := 3.0, azim := 170, stars := 0.0, hemiInt := 0.55,
               fogDensity := 0.00035, hemiSky := Color.ofHex 0xffc3a0,
               hemiGround := Color.ofHex 0x0b1020, fogColor := Color.ofHex 0x142033 } := rfl
  have hd : (0 : ℚ) < 2.5 := by norm_num
  obtain ⟨h1, h2⟩ := start_midflight_continuous initialCurrent _ sunsetPreset 2.5 500 hres hd
  exact ⟨hres, hd, h1, h2⟩


/-- The night preset with `exposure` omitted (`undefined` in JS). -/
def missingExposurePreset : Preset := { nightPreset with exposure := none }

/-- A caller passing an empty object: every field omitted. -/
def emptyPreset : Preset where
  exposure := none
  amb := none
  sunInt := none
  sunKelvin := none
  turbidity := none
  rayleigh := none
  mieC := none
  mieG := none
  elev := none
  azim := none
  stars := none
  hemiInt := none
  fogDensity := none
  hemiSky := none
  hemiGround := none
  fogColor := none

/-- Counterexample to claim C3: omitting `exposure` does NOT make the `to`
snapshot inherit the live `current.exposure` — the spread `{...to}` leaves it
`undefined` (only `hemiSky`, `hemiGround`, `fogColor`, `hemiInt`,
`fogDensity`, `sunKelvin` get `?? current` fallbacks, main.js:1627-1638). -/
theorem omitted_exposure_not_inherited :
    (startTransition missingExposurePreset 3 initialCurrent 0).toSnap.exposure = none ∧
    some initialCurrent.exposure ≠ none := by
  constructor
  · rfl
  · simp

/-- Claim C3 (amended): of the fields a caller may omit, exactly
`hemiInt`, `fogDensity`, `sunKelvin`, `hemiSky`, `hemiGround` and `fogColor`
inherit the live `current` value at the moment the transition starts; the ten
remaining fields (`exposure`, `amb`, `sunInt`, `turbidity`, `rayleigh`,
`mieC`, `mieG`, `elev`, `azim`, `stars`) stay undefined when omitted. -/
theorem omitted_fields_partial_defaulting (p : Preset) (cur : EnvState) (d now : ℚ) :
    ((p.hemiInt = none → (startTransition p d cur now).toSnap.hemiInt = cur.hemiInt) ∧
     (p.fogDensity = none → (startTransition p d cur now).toSnap.fogDensity = cur.fogDensity) ∧
     (p.sunKelvin = none → (startTransition p d cur now).toSnap.sunKelvin = cur.sunKelvin) ∧
     (p.hemiSky = none → (startTransition p d cur now).toSnap.hemiSky = cur.hemiSky) ∧
     (p.hemiGround = none → (startTransition p d cur now).toSnap.hemiGround = cur.hemiGround) ∧
     (p.fogColor = none → (startTransition p d cur now).toSnap.fogColor = cur.fogColor)) ∧
    ((p.exposure = none → (startTransition p d cur now).toSnap.exposure = none) ∧
     (p.amb = none → (startTransition p d cur now).toSnap.amb = none) ∧
     (p.sunInt = none → (startTransition p d cur now).toSnap.sunInt = none) ∧
     (p.turbidity = none → (startTransition p d cur now).toSnap.turbidity = none) ∧
     (p.rayleigh = none → (startTransition p d cur now).toSnap.rayleigh = none) ∧
     (p.mieC = none → (startTransition p d cur now).toSnap.mieC = none) ∧
     (p.mieG = none → (startTransition p d cur now).toSnap.mieG = none) ∧
     (p.elev = none → (startTransition p d cur now).toSnap.elev = none) ∧
     (p.azim = none → (startTransition p d cur now).toSnap.azim = none) ∧
     (p.stars = none → (startTransition p d cur now).toSnap.stars = none)) := by
  refine ⟨⟨?_, ?_, ?_, ?_, ?_, ?_⟩, ?_, ?_, ?_, ?_, ?_, ?_, ?_, ?_, ?_, ?_⟩ <;>
    intro h <;> simp [startTransition, h]

/-- Witness for the amended C3, at the empty preset and the program's initial
state: the omitted `hemiInt` inherits the live value while the omitted
`exposure` stays undefined. -/
theorem omitted_fields_partial_defaulting_witness :
    emptyPreset.hemiInt = none ∧
    (startTransition emptyPreset 2 initialCurrent 0).toSnap.hemiInt = initialCurrent.hemiInt ∧
    emptyPreset.exposure = none ∧
    (startTransition emptyPreset 2 initialCurrent 0).toSnap.exposure = none :=
  ⟨rfl, (omitted_fields_partial_defaulting emptyPreset initialCurrent 2 0).1.1 rfl, rfl,
   (omitted_fields_partial_defaulting emptyPreset initialCurrent 2 0).2.1 rfl⟩


/-- `v` lies in the closed interval spanned by `x` and `y`. -/
def within (x y v : ℚ) : Prop := min x y ≤ v ∧ v ≤ max x y

/-- Componentwise `within` for colors. -/
def colorWithin (x y v : Color) : Prop :=
  within x.r y.r v.r ∧ within x.g y.g v.g ∧ within x.b y.b v.b

/-- Every interpolated field of `s` lies between the corresponding fields of
`a` and `b` (scalar fields and color channels alike). -/
def fieldsWithin (a b s : EnvState) : Prop :=
  within a.exposure b.exposure s.exposure ∧
  within a.amb b.amb s.amb ∧
  within a.sunInt b.sunInt s.sunInt ∧
  within a.sunKelvin b.sunKelvin s.sunKelvin ∧
  within a.turbidity b.turbidity s.turbidity ∧
  within a.rayleigh b.rayleigh s.rayleigh ∧
  within a.mieC b.mieC s.mieC ∧
  within a.mieG b.mieG s.mieG ∧
  within a.elev b.elev s.elev ∧
  within a.azim b.azim s.azim ∧
  within a.stars b.stars s.stars ∧
  within a.hemiInt b.hemiInt s.hemiInt ∧
  within a.fogDensity b.fogDensity s.fogDensity ∧
  colorWithin a.hemiSky b.hemiSky s.hemiSky ∧
  colorWithin a.hemiGround b.hemiGround s.hemiGround ∧
  colorWithin a.fogColor b.fogColor s.fogColor

theorem smoothstep_mem (t : ℚ) (h0 : 0 ≤ t) (h1 : t ≤ 1) :
    0 ≤ smoothstep t ∧ smoothstep t ≤ 1 := by
  unfold smoothstep
  constructor
  · nlinarith [sq_nonneg t]
  · nlinarith [mul_nonneg (sq_nonneg (1 - t)) (by linarith : (0 : ℚ) ≤ 1 + 2 * t)]

theorem lerp_mem (x y s : ℚ) (h0 : 0 ≤ s) (h1 : s ≤ 1) : within x y (lerp x y s) := by
  unfold within lerp
  rcases le_total x y with h | h
  · rw [min_eq_left h, max_eq_right h]
    constructor <;> nlinarith
  · rw [min_eq_right h, max_eq_left h]
    constructor <;> nlinarith

theorem lerp_smooth_mem (x y t : ℚ) (h0 : 0 ≤ t) (h1 : t ≤ 1) :
    within x y (lerp x y (smoothstep t)) := by
  obtain ⟨hs0, hs1⟩ := smoothstep_mem t h0 h1
  exact lerp_mem x y (smoothstep t) hs0 hs1

/-- Claim C4: with raw progress `t ∈ [0,1]`, the advance step (cubic
smoothstep easing followed by linear interpolation, main.js:1916-1943) keeps
every interpolated scalar field and color channel within
`[min(from, to), max(from, to)]`. -/
theorem interpolation_within_bounds (a b : EnvState) (t : ℚ)
    (h0 : 0 ≤ t) (h1 : t ≤ 1) :
    fieldsWithin a b (lerpState a b (smoothstep t)) := by
  have L := fun x y => lerp_smooth_mem x y t h0 h1
  exact ⟨L _ _, L _ _, L _ _, L _ _, L _ _, L _ _, L _ _, L _ _, L _ _, L _ _,
         L _ _, L _ _, L _ _, ⟨L _ _, L _ _, L _ _⟩, ⟨L _ _, L _ _, L _ _⟩,
         ⟨L _ _, L _ _, L _ _⟩⟩

/-- Witness for C4: the initial state toward the night arrival at raw
progress one half. -/
theorem interpolation_within_bounds_witness :
    (0 : ℚ) ≤ 1 / 2 ∧ (1 / 2 : ℚ) ≤ 1 ∧
    fieldsWithin initialCurrent nightArrival
      (lerpState initialCurrent nightArrival (smoothstep (1 / 2))) :=
  ⟨by norm_num, by norm_num,
   interpolation_within_bounds initialCurrent nightArrival (1 / 2) (by norm_num) (by norm_num)⟩

/-- Claim C9: each frame, `updateSkyAndLights` sets the star-field opacity
uniform to the freshly advanced `current.stars` times the fixed constant 1.3
(main.js:2021), with no smoothing: the result is independent of the uniform's
previous value. -/
theorem stars_opacity_direct (fr fr2 : SkyFrame) (now : ℚ)
    (hc : fr2.current = fr.current) (ht : fr2.transition = fr.transition) :
    (updateSkyAndLights fr now).uOpacity
      = (updateSkyAndLights fr now).current.stars * 1.3 ∧
    (updateSkyAndLights fr2 now).uOpacity = (updateSkyAndLights fr now).uOpacity := by
  constructor
  · rfl
  · simp [updateSkyAndLights, hc, ht]

/-- Witness for C9: two frames that differ only in the previous uniform value
produce the same star opacity, equal to `stars × 1.3`. -/
theorem stars_opacity_direct_witness :
    (SkyFrame.mk initialCurrent none 99).current = (SkyFrame.mk initialCurrent none 0).current ∧
    (SkyFrame.mk initialCurrent none 99).transition
      = (SkyFrame.mk initialCurrent none 0).transition ∧
    (updateSkyAndLights (SkyFrame.mk initialCurrent none 0) 16).uOpacity
      = (updateSkyAndLights (SkyFrame.mk initialCurrent none 0) 16).current.stars * 1.3 ∧
    (updateSkyAndLights (SkyFrame.mk initialCurrent none 99) 16).uOpacity
      = (updateSkyAndLights (SkyFrame.mk initialCurrent none 0) 16).uOpacity := by
  obtain ⟨h1, h2⟩ := stars_opacity_direct (SkyFrame.mk initialCurrent none 0)
    (SkyFrame.mk initialCurrent none 99) 16 rfl rfl
  exact ⟨rfl, rfl, h1, h2⟩

/-- Claim C10: `setTimeOfDay` with a mode other than `day`, `sunset`,
`night` takes none of the three branches (main.js:1673-1751): it starts no
transition and leaves `current`, the active transition and `lighting.ibl`
unchanged. -/
theorem setTimeOfDay_unknown_mode (mode : String) (now : ℚ) (st : SysState)
    (hd : mode ≠ "day") (hs : mode ≠ "sunset") (hn : mode ≠ "night") :
    setTimeOfDay mode now st = st := by
  simp [setTimeOfDay, hd, hs, hn]

/-- Witness for C10: the mode string `dawn` at the program's initial state
(`lighting.ibl` starts at 1.2, main.js:1250) is a no-op. -/
theorem setTimeOfDay_unknown_mode_witness :
    "dawn" ≠ "day" ∧ "dawn" ≠ "sunset" ∧ "dawn" ≠ "night" ∧
    setTimeOfDay "dawn" 0 (SysState.mk initialCurrent none 1.2)
      = SysState.mk initialCurrent none 1.2 :=
  ⟨by decide, by decide, by decide,
   setTimeOfDay_unknown_mode "dawn" 0 (SysState.mk initialCurrent none 1.2)
     (by decide) (by decide) (by decide)⟩


/-- `THREE.MathUtils.clamp(value, min, max) = Math.max(min, Math.min(max, value))`. -/
noncomputable def clampR (x lo hi : ℝ) : ℝ := max lo (min hi x)

/-- `THREE.MathUtils.smoothstep(x, min, max)`: 0 below `min`, 1 above `max`,
cubic Hermite in between. -/
noncomputable def mathUtilsSmoothstep (x lo hi : ℝ) : ℝ :=
  if x ≤ lo then 0
  else if hi ≤ x then 1
  else
    let t := (x - lo) / (hi - lo)
    t * t * (3 - 2 * t)

/-- `isNight` of the frame loop (main.js:1793). -/
noncomputable def isNight (elev : ℝ) : ℝ := 1 - mathUtilsSmoothstep elev (-6.0) 5.0

/-- `isHighDay` of the frame loop (main.js:1794). -/
noncomputable def isHighDay (elev : ℝ) : ℝ := mathUtilsSmoothstep elev 5.0 25.0

/-- `isSunset` of the frame loop (main.js:1795). -/
noncomputable def isSunset (elev : ℝ) : ℝ := (1 - isNight elev) * (1 - isHighDay elev)

/-- `towerPulse = Math.sin(time * 2.0) * 0.5 + 0.5` (main.js:1811). -/
noncomputable def towerPulse (time : ℝ) : ℝ := Real.sin (time * 2.0) * 0.5 + 0.5

/-- The aggregate tower intensity of the frame loop (main.js:1817-1819):
starts at 0, adds `isSunset*0.6` when `isSunset > 0.1`, adds
`isNight*(0.8 + towerPulse*0.4)` when `isNight > 0.1`. -/
noncomputable def towerIntensity (elev time : ℝ) : ℝ :=
  (if isSunset elev > 0.1 then isSunset elev * 0.6 else 0)
    + (if isNight elev > 0.1 then isNight elev * (0.8 + towerPulse time * 0.4) else 0)

/-- The tower-intensity formula exactly as claim C7 words it: night term
`0.8 + 0.5×(1+sin(2·time))`. -/
noncomputable def claimedTowerIntensity (elev time : ℝ) : ℝ :=
  (if isSunset elev > 0.1 then isSunset elev * 0.6 else 0)
    + (if isNight elev > 0.1 then isNight elev * (0.8 + 0.5 * (1 + Real.sin (2 * time))) else 0)

/-- Counterexample to claim C7: at elevation −6 (full night, `isNight = 1`)
and time 0, the code computes `0.8 + towerPulse×0.4 = 1.0` while the claim's
formula `0.8 + 0.5×(1+sin 0) = 1.3`. -/
theorem tower_intensity_claim_false :
    towerIntensity (-6.0) 0 ≠ claimedTowerIntensity (-6.0) 0 := by
  have hN : isNight (-6.0) = 1 := by
    unfold isNight mathUtilsSmoothstep
    rw [if_pos (by norm_num : (-6.0 : ℝ) ≤ -6.0)]
    norm_num
  have hS : isSunset (-6.0) = 0 := by
    unfold isSunset
    rw [hN]
    ring
  unfold towerIntensity claimedTowerIntensity towerPulse
  rw [hN, hS]
  norm_num [Real.sin_zero]

/-- Claim C7 (amended): the aggregate tower intensity target is
`isSunset×0.6` (when `isSunset > 0.1`) plus
`isNight×(0.8 + 0.2×(1+sin(2·time)))` (when `isNight > 0.1`) — the
night-pulse coefficient is 0.2, not the claimed 0.5, since the code adds
`towerPulse×0.4` with `towerPulse = 0.5×(1+sin(2·time))`. -/
theorem tower_intensity_formula (elev time : ℝ) :
    towerIntensity elev time
      = (if isSunset elev > 0.1 then isSunset elev * 0.6 else 0)
        + (if isNight elev > 0.1 then
             isNight elev * (0.8 + 0.2 * (1 + Real.sin (2 * time))) else 0) := by
  unfold towerIntensity towerPulse
  rw [mul_comm time 2.0]
  split_ifs <;> ring_nf

/-- The shared `cityLightUniforms` block consumed by the building-window
shader patch. -/
structure CityUniforms where
  uTime : ℝ
  uLightIntensity : ℝ
  uWindowColor : ℕ

/-- The building-window portion of one `animate()` frame (main.js:1790-1808):
`uTime` is set to the clock, the intensity target is
`isSunset*0.5 + isNight*1.5`, the live value moves by
`(target − value) × 0.05`, and the tint snaps on `isSunset > 0.5`. -/
noncomputable def animateCityStep (elev time : ℝ) (u : CityUniforms) : CityUniforms where
  uTime := time
  uLightIntensity :=
    u.uLightIntensity + (isSunset elev * 0.5 + isNight elev * 1.5 - u.uLightIntensity) * 0.05
  uWindowColor := if isSunset elev > 0.5 then 0xffd8a8 else 0xffddaa

/-- Claim C8: each frame the building-window intensity target is
`isSunset×0.5 + isNight×1.5` and the live uniform moves by
`(target − value)×0.05`; the gain is a fixed per-frame constant — the update
is identical whatever the clock time of the frame, i.e. not scaled by
elapsed time. -/
theorem building_window_filter (elev time time2 : ℝ) (u : CityUniforms) :
    (animateCityStep elev time u).uLightIntensity
      = u.uLightIntensity
        + (isSunset elev * 0.5 + isNight elev * 1.5 - u.uLightIntensity) * 0.05 ∧
    (animateCityStep elev time u).uLightIntensity
      = (animateCityStep elev time2 u).uLightIntensity :=
  ⟨rfl, rfl⟩


/-- An RGB triple with real channels (a `THREE.Color` produced from
computed channel values). -/
structure RColor where
  r : ℝ
  g : ℝ
  b : ℝ

/-- The red branch of `kelvinToRGB` (main.js:1652-1654), on the rescaled
Kelvin `k`. -/
noncomputable def kelvinRed (k : ℝ) : ℝ :=
  if k ≤ 66 then 255
  else 329.698727446 * (k - 60) ^ (-0.1332047592 : ℝ)

/-- The green branch of `kelvinToRGB` (main.js:1656-1658). -/
noncomputable def kelvinGreen (k : ℝ) : ℝ :=
  if k ≤ 66 then 99.4708025861 * Real.log k - 161.1195681661
  else 288.1221695283 * (k - 60) ^ (-0.0755148492 : ℝ)

/-- The blue branch of `kelvinToRGB` (main.js:1660-1663). -/
noncomputable def kelvinBlue (k : ℝ) : ℝ :=
  if 66 ≤ k then 255
  else if k ≤ 19 then 0
  else 138.5177312231 * Real.log (k - 10) - 305.0447927307

/-- `kelvinToRGB(k)` (main.js:1646-1670): clamp the Kelvin input to
[1000, 40000], rescale by 1/100, apply the per-channel two-piece empirical
fits, clamp each channel to [0,255] and normalise to [0,1]. -/
noncomputable def kelvinToRGB (kelvin : ℝ) : RColor :=
  let k := clampR kelvin 1000 40000 / 100
  ⟨clampR (kelvinRed k) 0 255 / 255,
   clampR (kelvinGreen k) 0 255 / 255,
   clampR (kelvinBlue k) 0 255 / 255⟩

theorem clampR_mem (x lo hi : ℝ) (h : lo ≤ hi) :
    lo ≤ clampR x lo hi ∧ clampR x lo hi ≤ hi :=
  ⟨le_max_left _ _, max_le h (min_le_left _ _)⟩

theorem clampR_eq_self (x lo hi : ℝ) (h1 : lo ≤ x) (h2 : x ≤ hi) :
    clampR x lo hi = x := by
  unfold clampR
  rw [min_eq_right h2, max_eq_right h1]

theorem clampR_mono (x y lo hi : ℝ) (h : x ≤ y) :
    clampR x lo hi ≤ clampR y lo hi :=
  max_le_max le_rfl (min_le_min le_rfl h)

theorem clampR_idem (x lo hi : ℝ) (h : lo ≤ hi) :
    clampR (clampR x lo hi) lo hi = clampR x lo hi :=
  clampR_eq_self _ _ _ (clampR_mem x lo hi h).1 (clampR_mem x lo hi h).2

/-- Claim C5: `kelvinToRGB` first clamps its input to [1000, 40000] and
returns channels in [0,1]; consequently it is invariant under pre-clamping
its argument.  (Purity and determinism are immediate: it is a function of
its argument alone.) -/
theorem kelvinToRGB_unit_range_and_clamp (k : ℝ) :
    (0 ≤ (kelvinToRGB k).r ∧ (kelvinToRGB k).r ≤ 1) ∧
    (0 ≤ (kelvinToRGB k).g ∧ (kelvinToRGB k).g ≤ 1) ∧
    (0 ≤ (kelvinToRGB k).b ∧ (kelvinToRGB k).b ≤ 1) ∧
    kelvinToRGB k = kelvinToRGB (clampR k 1000 40000) := by
  have hch : ∀ v : ℝ, 0 ≤ clampR v 0 255 / 255 ∧ clampR v 0 255 / 255 ≤ 1 := by
    intro v
    obtain ⟨h1, h2⟩ := clampR_mem v 0 255 (by norm_num)
    constructor
    · positivity
    · rw [div_le_one (by norm_num : (0:ℝ) < 255)]
      exact h2
  refine ⟨hch _, hch _, hch _, ?_⟩
  unfold kelvinToRGB
  rw [clampR_idem k 1000 40000 (by norm_num)]


theorem log_65_bounds : (4.174380 : ℝ) < Real.log 65 ∧ Real.log 65 < 4.174391 := by
  have h2lo := Real.log_two_gt_d9
  have h2hi := Real.log_two_lt_d9
  have h64 : Real.log 64 = 6 * Real.log 2 := by
    rw [show (64 : ℝ) = 2 ^ (6 : ℕ) by norm_num, Real.log_pow]
    norm_num
  have habs : |(1 : ℝ) / 65| = 1 / 65 := abs_of_pos (by norm_num)
  have hx : |(1 : ℝ) / 65| < 1 := by rw [habs]; norm_num
  have hT := Real.abs_log_sub_add_sum_range_le hx 2
  rw [habs, show (1 : ℝ) - 1 / 65 = 64 / 65 by norm_num,
      Real.log_div (by norm_num) (by norm_num), h64, abs_le] at hT
  obtain ⟨hL, hU⟩ := hT
  norm_num [Finset.sum_range_succ] at hL hU
  constructor <;> linarith


theorem log_55_bounds : (4.00728 : ℝ) < Real.log 55 ∧ Real.log 55 < 4.00741 := by
  have h2lo := Real.log_two_gt_d9
  have h2hi := Real.log_two_lt_d9
  have h64 : Real.log 64 = 6 * Real.log 2 := by
    rw [show (64 : ℝ) = 2 ^ (6 : ℕ) by norm_num, Real.log_pow]
    norm_num
  have habs : |(9 : ℝ) / 64| = 9 / 64 := abs_of_pos (by norm_num)
  have hx : |(9 : ℝ) / 64| < 1 := by rw [habs]; norm_num
  have hT := Real.abs_log_sub_add_sum_range_le hx 4
  rw [habs, show (1 : ℝ) - 9 / 64 = 55 / 64 by norm_num,
      Real.log_div (by norm_num) (by norm_num), h64, abs_le] at hT
  obtain ⟨hL, hU⟩ := hT
  norm_num [Finset.sum_range_succ] at hL hU
  constructor <;> linarith

theorem log_20_bounds : (2.9957 : ℝ) < Real.log 20 ∧ Real.log 20 < 2.9958 := by
  have h2lo := Real.log_two_gt_d9
  have h2hi := Real.log_two_lt_d9
  have h16 : Real.log 16 = 4 * Real.log 2 := by
    rw [show (16 : ℝ) = 2 ^ (4 : ℕ) by norm_num, Real.log_pow]
    norm_num
  have h20 : Real.log 16 = Real.log 20 + Real.log (4 / 5) := by
    rw [show (16 : ℝ) = 20 * (4 / 5) by norm_num]
    exact Real.log_mul (by norm_num) (by norm_num)
  have habs : |(1 : ℝ) / 5| = 1 / 5 := abs_of_pos (by norm_num)
  have hx : |(1 : ℝ) / 5| < 1 := by rw [habs]; norm_num
  have hT := Real.abs_log_sub_add_sum_range_le hx 6
  rw [habs, show (1 : ℝ) - 1 / 5 = 4 / 5 by norm_num, abs_le] at hT
  obtain ⟨hL, hU⟩ := hT
  norm_num [Finset.sum_range_succ] at hL hU
  constructor <;> linarith

theorem log_10_bounds : (2.30256 : ℝ) < Real.log 10 ∧ Real.log 10 < 2.30260 := by
  have h2lo := Real.log_two_gt_d9
  have h2hi := Real.log_two_lt_d9
  have h8 : Real.log 8 = 3 * Real.log 2 := by
    rw [show (8 : ℝ) = 2 ^ (3 : ℕ) by norm_num, Real.log_pow]
    norm_num
  have h10 : Real.log 8 = Real.log 10 + Real.log (4 / 5) := by
    rw [show (8 : ℝ) = 10 * (4 / 5) by norm_num]
    exact Real.log_mul (by norm_num) (by norm_num)
  have habs : |(1 : ℝ) / 5| = 1 / 5 := abs_of_pos (by norm_num)
  have hx : |(1 : ℝ) / 5| < 1 := by rw [habs]; norm_num
  have hT := Real.abs_log_sub_add_sum_range_le hx 6
  rw [habs, show (1 : ℝ) - 1 / 5 = 4 / 5 by norm_num, abs_le] at hT
  obtain ⟨hL, hU⟩ := hT
  norm_num [Finset.sum_range_succ] at hL hU
  constructor <;> linarith


theorem kelvin6500_channels :
    (kelvinToRGB 6500).r = 1 ∧
    (0.9965 < (kelvinToRGB 6500).g ∧ (kelvinToRGB 6500).g < 0.99652) ∧
    (0.98052 < (kelvinToRGB 6500).b ∧ (kelvinToRGB 6500).b < 0.9806) := by
  have hk : clampR 6500 1000 40000 / 100 = (65 : ℝ) := by
    rw [clampR_eq_self 6500 1000 40000 (by norm_num) (by norm_num)]
    norm_num
  have hr : (kelvinToRGB 6500).r
      = clampR (kelvinRed (clampR 6500 1000 40000 / 100)) 0 255 / 255 := rfl
  have hg : (kelvinToRGB 6500).g
      = clampR (kelvinGreen (clampR 6500 1000 40000 / 100)) 0 255 / 255 := rfl
  have hb : (kelvinToRGB 6500).b
      = clampR (kelvinBlue (clampR 6500 1000 40000 / 100)) 0 255 / 255 := rfl
  obtain ⟨h65lo, h65hi⟩ := log_65_bounds
  obtain ⟨h55lo, h55hi⟩ := log_55_bounds
  have hred : kelvinRed 65 = 255 := if_pos (by norm_num)
  have hgreen : kelvinGreen 65 = 99.4708025861 * Real.log 65 - 161.1195681661 :=
    if_pos (by norm_num)
  have hblue : kelvinBlue 65 = 138.5177312231 * Real.log 55 - 305.0447927307 := by
    unfold kelvinBlue
    rw [if_neg (by norm_num), if_neg (by norm_num)]
    norm_num
  have hg0 : (0 : ℝ) ≤ 99.4708025861 * Real.log 65 - 161.1195681661 := by linarith
  have hg255 : 99.4708025861 * Real.log 65 - 161.1195681661 ≤ (255 : ℝ) := by linarith
  have hb0 : (0 : ℝ) ≤ 138.5177312231 * Real.log 55 - 305.0447927307 := by linarith
  have hb255 : 138.5177312231 * Real.log 55 - 305.0447927307 ≤ (255 : ℝ) := by linarith
  refine ⟨?_, ⟨?_, ?_⟩, ⟨?_, ?_⟩⟩
  · rw [hr, hk, hred, clampR_eq_self 255 0 255 (by norm_num) (by norm_num)]
    norm_num
  · rw [hg, hk, hgreen, clampR_eq_self _ _ _ hg0 hg255]
    linarith
  · rw [hg, hk, hgreen, clampR_eq_self _ _ _ hg0 hg255]
    linarith
  · rw [hb, hk, hblue, clampR_eq_self _ _ _ hb0 hb255]
    linarith
  · rw [hb, hk, hblue, clampR_eq_self _ _ _ hb0 hb255]
    linarith

theorem kelvin2000_channels :
    (kelvinToRGB 2000).r = 1 ∧
    (0.5367 < (kelvinToRGB 2000).g ∧ (kelvinToRGB 2000).g < 0.5368) ∧
    (0.0545 < (kelvinToRGB 2000).b ∧ (kelvinToRGB 2000).b < 0.0546) := by
  have hk : clampR 2000 1000 40000 / 100 = (20 : ℝ) := by
    rw [clampR_eq_self 2000 1000 40000 (by norm_num) (by norm_num)]
    norm_num
  have hr : (kelvinToRGB 2000).r
      = clampR (kelvinRed (clampR 2000 1000 40000 / 100)) 0 255 / 255 := rfl
  have hg : (kelvinToRGB 2000).g
      = clampR (kelvinGreen (clampR 2000 1000 40000 / 100)) 0 255 / 255 := rfl
  have hb : (kelvinToRGB 2000).b
      = clampR (kelvinBlue (clampR 2000 1000 40000 / 100)) 0 255 / 255 := rfl
  obtain ⟨h20lo, h20hi⟩ := log_20_bounds
  obtain ⟨h10lo, h10hi⟩ := log_10_bounds
  have hred : kelvinRed 20 = 255 := if_pos (by norm_num)
  have hgreen : kelvinGreen 20 = 99.4708025861 * Real.log 20 - 161.1195681661 :=
    if_pos (by norm_num)
  have hblue : kelvinBlue 20 = 138.5177312231 * Real.log 10 - 305.0447927307 := by
    unfold kelvinBlue
    rw [if_neg (by norm_num), if_neg (by norm_num)]
    norm_num
  have hg0 : (0 : ℝ) ≤ 99.4708025861 * Real.log 20 - 161.1195681661 := by linarith
  have hg255 : 99.4708025861 * Real.log 20 - 161.1195681661 ≤ (255 : ℝ) := by linarith
  have hb0 : (0 : ℝ) ≤ 138.5177312231 * Real.log 10 - 305.0447927307 := by linarith
  have hb255 : 138.5177312231 * Real.log 10 - 305.0447927307 ≤ (255 : ℝ) := by linarith
  refine ⟨?_, ⟨?_, ?_⟩, ⟨?_, ?_⟩⟩
  · rw [hr, hk, hred, clampR_eq_self 255 0 255 (by norm_num) (by norm_num)]
    norm_num
  · rw [hg, hk, hgreen, clampR_eq_self _ _ _ hg0 hg255]
    linarith
  · rw [hg, hk, hgreen, clampR_eq_self _ _ _ hg0 hg255]
    linarith
  · rw [hb, hk, hblue, clampR_eq_self _ _ _ hb0 hb255]
    linarith
  · rw [hb, hk, hblue, clampR_eq_self _ _ _ hb0 hb255]
    linarith

theorem clampBlue_mono (c1 c2 : ℝ) (h10 : 10 ≤ c1) (h12 : c1 ≤ c2) (h66 : c2 ≤ 66) :
    clampR (kelvinBlue c1) 0 255 ≤ clampR (kelvinBlue c2) 0 255 := by
  rcases le_or_lt 66 c2 with hc2 | hc2
  · have hb2 : kelvinBlue c2 = 255 := by
      unfold kelvinBlue
      rw [if_pos hc2]
    rw [hb2, clampR_eq_self 255 0 255 (by norm_num) (by norm_num)]
    exact (clampR_mem _ 0 255 (by norm_num)).2
  · have hc1 : c1 < 66 := lt_of_le_of_lt h12 hc2
    have hb2 : kelvinBlue c2
        = if c2 ≤ 19 then 0 else 138.5177312231 * Real.log (c2 - 10) - 305.0447927307 := by
      unfold kelvinBlue
      rw [if_neg (not_le.mpr hc2)]
    have hb1 : kelvinBlue c1
        = if c1 ≤ 19 then 0 else 138.5177312231 * Real.log (c1 - 10) - 305.0447927307 := by
      unfold kelvinBlue
      rw [if_neg (not_le.mpr hc1)]
    rcases le_or_lt c1 19 with h19 | h19
    · rw [hb1, if_pos h19, clampR_eq_self 0 0 255 le_rfl (by norm_num)]
      exact (clampR_mem _ 0 255 (by norm_num)).1
    · have h19b : ¬ c2 ≤ 19 := not_le.mpr (lt_of_lt_of_le h19 h12)
      rw [hb1, if_neg (not_le.mpr h19), hb2, if_neg h19b]
      apply clampR_mono
      have hlog : Real.log (c1 - 10) ≤ Real.log (c2 - 10) :=
        Real.log_le_log (by linarith) (by linarith)
      linarith

theorem kelvinBlue_channel_mono (k1 k2 : ℝ) (h12 : k1 ≤ k2) (h66 : k2 ≤ 6600) :
    (kelvinToRGB k1).b ≤ (kelvinToRGB k2).b := by
  have hbeq : ∀ k : ℝ, (kelvinToRGB k).b
      = clampR (kelvinBlue (clampR k 1000 40000 / 100)) 0 255 / 255 := fun _ => rfl
  rw [hbeq, hbeq]
  have hm : clampR k1 1000 40000 / 100 ≤ clampR k2 1000 40000 / 100 := by
    have := clampR_mono k1 k2 1000 40000 h12
    linarith
  have h10 : (10 : ℝ) ≤ clampR k1 1000 40000 / 100 := by
    have := (clampR_mem k1 1000 40000 (by norm_num)).1
    linarith
  have h66c : clampR k2 1000 40000 / 100 ≤ 66 := by
    have hle : clampR k2 1000 40000 ≤ 6600 := by
      unfold clampR
      exact max_le (by norm_num) (le_trans (min_le_right _ _) h66)
    linarith
  have := clampBlue_mono _ _ h10 hm h66c
  linarith

/-- Claim C6: `kelvinToRGB(6500)` has nearly equal channels (pairwise within
0.02 of each other, all near white), `kelvinToRGB(2000)` is warm with
R > G > B, and the blue channel is monotone: lowering the Kelvin input keeps
blue non-increasing whenever the higher input is at most 6600. -/
theorem kelvin_reference_points :
    (|(kelvinToRGB 6500).r - (kelvinToRGB 6500).g| < 0.02 ∧
     |(kelvinToRGB 6500).g - (kelvinToRGB 6500).b| < 0.02 ∧
     |(kelvinToRGB 6500).r - (kelvinToRGB 6500).b| < 0.02) ∧
    ((kelvinToRGB 2000).g < (kelvinToRGB 2000).r ∧
     (kelvinToRGB 2000).b < (kelvinToRGB 2000).g) ∧
    (∀ k1 k2 : ℝ, k1 ≤ k2 → k2 ≤ 6600 → (kelvinToRGB k1).b ≤ (kelvinToRGB k2).b) := by
  obtain ⟨hr6, ⟨hg6lo, hg6hi⟩, hb6lo, hb6hi⟩ := kelvin6500_channels
  obtain ⟨hr2, ⟨hg2lo, hg2hi⟩, hb2lo, hb2hi⟩ := kelvin2000_channels
  refine ⟨⟨?_, ?_, ?_⟩, ⟨?_, ?_⟩, fun k1 k2 h12 h66 => kelvinBlue_channel_mono k1 k2 h12 h66⟩
  · rw [abs_lt]
    constructor <;> linarith
  · rw [abs_lt]
    constructor <;> linarith
  · rw [abs_lt]
    constructor <;> linarith
  · linarith
  · linarith

/-- Witness for the monotonicity conjunct of C6 at 3000 K and 5000 K. -/
theorem kelvin_reference_points_witness :
    (3000 : ℝ) ≤ 5000 ∧ (5000 : ℝ) ≤ 6600 ∧
    (kelvinToRGB 3000).b ≤ (kelvinToRGB 5000).b :=
  ⟨by norm_num, by norm_num,
   kelvin_reference_points.2.2 3000 5000 (by norm_num) (by norm_num)⟩


end TokyoTower
